import Mathlib

/-
Verification of django-db-signals (hook.py): an interception layer that
wraps Django transaction-control entry points so each is bracketed by
pre/post signal dispatch.  The embedding below models the wrapped
functions of src/django_db_signals/hook.py as pure trace-producing
functions.  The host transaction manager (Django) is external: its state
is a TxnState read-only snapshot and each real operation is an arbitrary
parameter of type RealOp that may change state and may raise (Option Nat
error code).  Signal dispatch follows django.dispatch semantics as the
spec describes them: strict send stops at the first failing receiver and
propagates; send_robust runs every receiver and returns the failures.
-/

namespace DbSignals

/-- The six signal channels of DatabaseSignals in hook.py. -/
inductive SignalName
  | pre_commit
  | post_commit
  | pre_rollback
  | post_rollback
  | pre_transaction_management
  | post_transaction_management
deriving DecidableEq

/-- Delivery mode of a dispatch: Signal.send is strict, send_robust is robust. -/
inductive Mode
  | strict
  | robust
deriving DecidableEq

/-- A subscribed receiver: an identity and whether invoking it raises. -/
structure Handler where
  hid : Nat
  fails : Bool
deriving DecidableEq

/-- Errors that can propagate out of a wrapped operation: the failure of a receiver
raised by a strict dispatch, or the own error of the real operation. -/
inductive Err
  | handlerErr (signal : SignalName) (hid : Nat)
  | opErr (code : Nat)
deriving DecidableEq

/-- Observable events of one wrapped-operation call, in order: a dispatch
starting on a channel, a receiver being invoked, the real (unpatched)
target being invoked, and an error log line. -/
inductive Event
  | dispatchStart (signal : SignalName) (mode : Mode) (sender : Nat)
  | handlerRun (signal : SignalName) (hid : Nat)
  | realCall
  | logLine (line : String)
deriving DecidableEq

/-- Read-only snapshot of the per-alias Django transaction state: the values
transaction.is_dirty(using) and transaction.is_managed(using) return. -/
structure TxnState where
  dirty : Bool
  managed : Bool
deriving DecidableEq

/-- A real transaction-control operation (external, owned by Django): maps
the current state to a new state and optionally a raised error code.  All
seven wrapped targets return None in Django, so no return value is
modelled. -/
abbrev RealOp := TxnState → TxnState × Option Nat

/-- Result of calling a wrapped operation: its event trace, the resulting
transaction state, and the error (if any) propagating to the caller. -/
structure CallResult where
  trace : List Event
  state : TxnState
  err : Option Err
deriving DecidableEq

/-- The channel names as strings, as used for logging in hook.py. -/
def signalNameStr : SignalName → String
  | SignalName.pre_commit => "pre_commit"
  | SignalName.post_commit => "post_commit"
  | SignalName.pre_rollback => "pre_rollback"
  | SignalName.post_rollback => "post_rollback"
  | SignalName.pre_transaction_management => "pre_transaction_management"
  | SignalName.post_transaction_management => "post_transaction_management"

/-- Abstract repr of a receiver (Python %r of the function object). -/
def receiverRepr (h : Handler) : String := "receiver-" ++ toString h.hid

/-- Abstract repr of the exception a receiver raised. -/
def responseRepr (h : Handler) : String := "error-" ++ toString h.hid

/-- The log-line format string of send_robust_and_log_errors:
%s receiver "%r" failed: %r. -/
def logFormat (signalName receiver response : String) : String :=
  signalName ++ " receiver \"" ++ receiver ++ "\" failed: " ++ response

/-- Strict delivery (django Signal.send): receivers run in subscription
order; the first failure aborts the remaining receivers and is returned. -/
def runStrict (s : SignalName) : List Handler → List Event × Option Err
  | [] => ([], none)
  | h :: t =>
    if h.fails then
      ([Event.handlerRun s h.hid], some (Err.handlerErr s h.hid))
    else
      let r := runStrict s t
      (Event.handlerRun s h.hid :: r.1, r.2)

/-- A strict dispatch on a channel: the dispatch event followed by the
receiver runs, with the first failure (if any) propagating. -/
def sendStrict (s : SignalName) (sender : Nat) (hs : List Handler) :
    List Event × Option Err :=
  let r := runStrict s hs
  (Event.dispatchStart s Mode.strict sender :: r.1, r.2)

/-- send_robust_and_log_errors of hook.py: every receiver runs regardless
of failures; afterwards one error log line is emitted per failed receiver.
Nothing propagates. -/
def send_robust_and_log_errors (s : SignalName) (sender : Nat)
    (hs : List Handler) : List Event :=
  Event.dispatchStart s Mode.robust sender
    :: hs.map (fun h => Event.handlerRun s h.hid)
    ++ (hs.filter (fun h => h.fails)).map
        (fun h => Event.logLine
          (logFormat (signalNameStr s) (receiverRepr h) (responseRepr h)))

/-- DEFAULT_DB_ALIAS of django.db. -/
def DEFAULT_DB_ALIAS : String := "default"

/-- conn of hook.py: map an alias (None means the default alias) to the
connection identity used as the sender of every dispatch. -/
def conn (connections : String → Nat) (a : Option String) : Nat :=
  connections (match a with
    | none => DEFAULT_DB_ALIAS
    | some x => x)

/-- The subscriber lists of the six channels of DatabaseSignals, as they
stand when a wrapped operation is called. -/
structure DatabaseSignals where
  pre_commit : List Handler
  post_commit : List Handler
  pre_rollback : List Handler
  post_rollback : List Handler
  pre_transaction_management : List Handler
  post_transaction_management : List Handler
deriving DecidableEq

/-- The registry with no subscriber on any channel. -/
def noSubscribers : DatabaseSignals := ⟨[], [], [], [], [], []⟩

/-- Wrapped django.db.transaction.commit.  Strict pre_commit, the real
call, and post_commit (robust) only on success; a failure of the real call
propagates untouched with no post dispatch. -/
def commit (signals : DatabaseSignals) (connections : String → Nat)
    (real : RealOp) (u : Option String) (st : TxnState) : CallResult :=
  let connection := conn connections u
  match sendStrict SignalName.pre_commit connection signals.pre_commit with
  | (pevs, some e) => ⟨pevs, st, some e⟩
  | (pevs, none) =>
    match real st with
    | (st2, some code) => ⟨pevs ++ [Event.realCall], st2, some (Err.opErr code)⟩
    | (st2, none) =>
      ⟨pevs ++ [Event.realCall]
        ++ send_robust_and_log_errors SignalName.post_commit connection
            signals.post_commit,
       st2, none⟩

/-- Wrapped django.db.transaction.commit_unless_managed: the commit
bracket when not managed, otherwise just the real call with no dispatch. -/
def commit_unless_managed (signals : DatabaseSignals)
    (connections : String → Nat) (real : RealOp) (u : Option String)
    (st : TxnState) : CallResult :=
  if !st.managed then
    let connection := conn connections u
    match sendStrict SignalName.pre_commit connection signals.pre_commit with
    | (pevs, some e) => ⟨pevs, st, some e⟩
    | (pevs, none) =>
      match real st with
      | (st2, some code) => ⟨pevs ++ [Event.realCall], st2, some (Err.opErr code)⟩
      | (st2, none) =>
        ⟨pevs ++ [Event.realCall]
          ++ send_robust_and_log_errors SignalName.post_commit connection
              signals.post_commit,
         st2, none⟩
  else
    match real st with
    | (st2, e) => ⟨[Event.realCall], st2, e.map Err.opErr⟩

/-- Wrapped django.db.transaction.enter_transaction_management: strict
pre_transaction_management, then the real call; no post dispatch. -/
def enter_transaction_management (signals : DatabaseSignals)
    (connections : String → Nat) (real : RealOp) (_managedFlag : Bool)
    (u : Option String) (st : TxnState) : CallResult :=
  match sendStrict SignalName.pre_transaction_management (conn connections u)
      signals.pre_transaction_management with
  | (pevs, some e) => ⟨pevs, st, some e⟩
  | (pevs, none) =>
    match real st with
    | (st2, e) => ⟨pevs ++ [Event.realCall], st2, e.map Err.opErr⟩

/-- Wrapped django.db.transaction.leave_transaction_management.  is_dirty
is read before the real call; unless IS_DJANGO_12, a dirty state is
bracketed with pre_rollback (strict) and post_rollback (robust); the post
dispatches sit in a finally block, so they fire even when the real leave
raises, with post_transaction_management always last, and the real error
still propagates. -/
def leave_transaction_management (IS_DJANGO_12 : Bool)
    (signals : DatabaseSignals) (connections : String → Nat) (real : RealOp)
    (u : Option String) (st : TxnState) : CallResult :=
  let connection := conn connections u
  let is_dirty := st.dirty
  if is_dirty && !IS_DJANGO_12 then
    match sendStrict SignalName.pre_rollback connection signals.pre_rollback with
    | (pevs, some e) => ⟨pevs, st, some e⟩
    | (pevs, none) =>
      match real st with
      | (st2, e) =>
        ⟨pevs ++ [Event.realCall]
          ++ send_robust_and_log_errors SignalName.post_rollback connection
              signals.post_rollback
          ++ send_robust_and_log_errors SignalName.post_transaction_management
              connection signals.post_transaction_management,
         st2, e.map Err.opErr⟩
  else
    match real st with
    | (st2, e) =>
      ⟨[Event.realCall]
        ++ send_robust_and_log_errors SignalName.post_transaction_management
            connection signals.post_transaction_management,
       st2, e.map Err.opErr⟩

/-- Wrapped django.db.transaction.managed: turning management off while
dirty performs an implicit commit inside the real call, so that case gets
the commit bracket; otherwise no dispatch. -/
def managed (signals : DatabaseSignals) (connections : String → Nat)
    (real : RealOp) (flag : Bool) (u : Option String) (st : TxnState) :
    CallResult :=
  let should_commit := !flag && st.dirty
  let connection := conn connections u
  if should_commit then
    match sendStrict SignalName.pre_commit connection signals.pre_commit with
    | (pevs, some e) => ⟨pevs, st, some e⟩
    | (pevs, none) =>
      match real st with
      | (st2, some code) => ⟨pevs ++ [Event.realCall], st2, some (Err.opErr code)⟩
      | (st2, none) =>
        ⟨pevs ++ [Event.realCall]
          ++ send_robust_and_log_errors SignalName.post_commit connection
              signals.post_commit,
         st2, none⟩
  else
    match real st with
    | (st2, e) => ⟨[Event.realCall], st2, e.map Err.opErr⟩

/-- Wrapped django.db.transaction.rollback: strict pre_rollback, the real
call, and post_rollback (robust) only on success. -/
def rollback (signals : DatabaseSignals) (connections : String → Nat)
    (real : RealOp) (u : Option String) (st : TxnState) : CallResult :=
  let connection := conn connections u
  match sendStrict SignalName.pre_rollback connection signals.pre_rollback with
  | (pevs, some e) => ⟨pevs, st, some e⟩
  | (pevs, none) =>
    match real st with
    | (st2, some code) => ⟨pevs ++ [Event.realCall], st2, some (Err.opErr code)⟩
    | (st2, none) =>
      ⟨pevs ++ [Event.realCall]
        ++ send_robust_and_log_errors SignalName.post_rollback connection
            signals.post_rollback,
       st2, none⟩

/-- Wrapped django.db.transaction.rollback_unless_managed: the rollback
bracket when not managed, otherwise just the real call with no dispatch. -/
def rollback_unless_managed (signals : DatabaseSignals)
    (connections : String → Nat) (real : RealOp) (u : Option String)
    (st : TxnState) : CallResult :=
  if !st.managed then
    let connection := conn connections u
    match sendStrict SignalName.pre_rollback connection signals.pre_rollback with
    | (pevs, some e) => ⟨pevs, st, some e⟩
    | (pevs, none) =>
      match real st with
      | (st2, some code) => ⟨pevs ++ [Event.realCall], st2, some (Err.opErr code)⟩
      | (st2, none) =>
        ⟨pevs ++ [Event.realCall]
          ++ send_robust_and_log_errors SignalName.post_rollback connection
              signals.post_rollback,
         st2, none⟩
  else
    match real st with
    | (st2, e) => ⟨[Event.realCall], st2, e.map Err.opErr⟩

/-- Modelled from the spec: the external behavior of the unwrapped
original transaction-control operation, used for the refinement claim.
The spec says the six operations, called with no subscribers, produce
identical external behavior (return value, raised failures) to the
unwrapped original, which performs the real operation and propagates its
failure, if any, to the caller. -/
def unwrappedCall (real : RealOp) (st : TxnState) : TxnState × Option Err :=
  let r := real st
  (r.1, r.2.map Err.opErr)

/-- Is this event an error log line? -/
def isLogEvent : Event → Bool
  | Event.logLine _ => true
  | _ => false

/-- Does this event start a dispatch on channel s (either mode)? -/
def isDispatchOn (s : SignalName) : Event → Bool
  | Event.dispatchStart t _ _ => decide (t = s)
  | _ => false

/-- Does this event start a dispatch on channel s in mode m? -/
def isDispatchM (s : SignalName) (m : Mode) : Event → Bool
  | Event.dispatchStart t m2 _ => decide (t = s) && decide (m2 = m)
  | _ => false

/-- Number of dispatches on channel s in a trace. -/
def countD (s : SignalName) (tr : List Event) : Nat :=
  (tr.filter (isDispatchOn s)).length

/-- Number of dispatches on channel s in mode m in a trace. -/
def countDM (s : SignalName) (m : Mode) (tr : List Event) : Nat :=
  (tr.filter (isDispatchM s m)).length

/-- Does the trace contain a dispatch on channel s? -/
def containsDispatch (s : SignalName) (tr : List Event) : Bool :=
  tr.any (isDispatchOn s)

/-- True when a dispatch on s occurs before the first real call (or the
trace has no real call at all). -/
def dispatchBeforeReal (s : SignalName) : List Event → Bool
  | [] => true
  | Event.realCall :: _ => false
  | Event.dispatchStart t _ _ :: rest =>
    if t = s then true else dispatchBeforeReal s rest
  | _ :: rest => dispatchBeforeReal s rest

/-- True when a dispatch on s occurs strictly after the first real call. -/
def dispatchAfterReal (s : SignalName) : List Event → Bool
  | [] => false
  | Event.realCall :: rest => containsDispatch s rest
  | _ :: rest => dispatchAfterReal s rest

/-- True when a dispatch on s1 occurs before any dispatch on s2. -/
def firstDispatchBefore (s1 s2 : SignalName) : List Event → Bool
  | [] => false
  | Event.dispatchStart t _ _ :: rest =>
    if t = s1 then true
    else if t = s2 then false
    else firstDispatchBefore s1 s2 rest
  | _ :: rest => firstDispatchBefore s1 s2 rest

theorem filter_eq_nil_of (p : Event → Bool) (l : List Event)
    (h : ∀ e ∈ l, p e = false) : l.filter p = [] := by
  induction l with
  | nil => rfl
  | cons a t ih =>
    have ha : p a = false := h a (List.mem_cons_self a t)
    have ht : ∀ e ∈ t, p e = false := fun e he => h e (List.mem_cons_of_mem a he)
    simp [List.filter_cons, ha, ih ht]

theorem countD_append (s : SignalName) (l1 l2 : List Event) :
    countD s (l1 ++ l2) = countD s l1 + countD s l2 := by
  simp [countD, List.filter_append]

theorem countDM_append (s : SignalName) (m : Mode) (l1 l2 : List Event) :
    countDM s m (l1 ++ l2) = countDM s m l1 + countDM s m l2 := by
  simp [countDM, List.filter_append]

theorem runStrict_shape (s : SignalName) (hs : List Handler) :
    ∀ e ∈ (runStrict s hs).1, ∃ i, e = Event.handlerRun s i := by
  induction hs with
  | nil => intro e he; simp [runStrict] at he
  | cons b t ih =>
    intro e he
    by_cases hf : b.fails
    · simp [runStrict, hf] at he
      exact ⟨b.hid, he⟩
    · simp [runStrict, hf] at he
      rcases he with he | he
      · exact ⟨b.hid, he⟩
      · exact ih e he

theorem realCall_not_mem_runStrict (s : SignalName) (hs : List Handler) :
    Event.realCall ∉ (runStrict s hs).1 := by
  intro hm
  rcases runStrict_shape s hs _ hm with ⟨i, hi⟩
  exact Event.noConfusion hi

theorem countD_runStrict (s s2 : SignalName) (hs : List Handler) :
    countD s (runStrict s2 hs).1 = 0 := by
  have : (runStrict s2 hs).1.filter (isDispatchOn s) = [] := by
    apply filter_eq_nil_of
    intro e he
    rcases runStrict_shape s2 hs e he with ⟨i, rfl⟩
    rfl
  simp [countD, this]

theorem countDM_runStrict (s : SignalName) (m : Mode) (s2 : SignalName)
    (hs : List Handler) : countDM s m (runStrict s2 hs).1 = 0 := by
  have : (runStrict s2 hs).1.filter (isDispatchM s m) = [] := by
    apply filter_eq_nil_of
    intro e he
    rcases runStrict_shape s2 hs e he with ⟨i, rfl⟩
    rfl
  simp [countDM, this]

theorem countD_eq_zero_of (s : SignalName) (l : List Event)
    (h : ∀ e ∈ l, isDispatchOn s e = false) : countD s l = 0 := by
  simp [countD, filter_eq_nil_of (isDispatchOn s) l h]

theorem countDM_eq_zero_of (s : SignalName) (m : Mode) (l : List Event)
    (h : ∀ e ∈ l, isDispatchM s m e = false) : countDM s m l = 0 := by
  simp [countDM, filter_eq_nil_of (isDispatchM s m) l h]

theorem countD_cons (s : SignalName) (e : Event) (l : List Event) :
    countD s (e :: l) = (if isDispatchOn s e then 1 else 0) + countD s l := by
  by_cases hp : isDispatchOn s e <;>
    simp [countD, List.filter_cons, hp, Nat.add_comm]

theorem countDM_cons (s : SignalName) (m : Mode) (e : Event) (l : List Event) :
    countDM s m (e :: l) = (if isDispatchM s m e then 1 else 0) + countDM s m l := by
  by_cases hp : isDispatchM s m e <;>
    simp [countDM, List.filter_cons, hp, Nat.add_comm]

theorem countD_robustTail (s s2 : SignalName) (hs : List Handler) :
    countD s ((hs.map fun b => Event.handlerRun s2 b.hid) ++
      (hs.filter (fun b => b.fails)).map
        (fun b => Event.logLine (logFormat (signalNameStr s2) (receiverRepr b)
          (responseRepr b)))) = 0 := by
  apply countD_eq_zero_of
  intro e he
  rcases List.mem_append.1 he with he | he
  · rcases List.mem_map.1 he with ⟨b, _, rfl⟩
    rfl
  · rcases List.mem_map.1 he with ⟨b, _, rfl⟩
    rfl

theorem countDM_robustTail (s : SignalName) (m : Mode) (s2 : SignalName)
    (hs : List Handler) :
    countDM s m ((hs.map fun b => Event.handlerRun s2 b.hid) ++
      (hs.filter (fun b => b.fails)).map
        (fun b => Event.logLine (logFormat (signalNameStr s2) (receiverRepr b)
          (responseRepr b)))) = 0 := by
  apply countDM_eq_zero_of
  intro e he
  rcases List.mem_append.1 he with he | he
  · rcases List.mem_map.1 he with ⟨b, _, rfl⟩
    rfl
  · rcases List.mem_map.1 he with ⟨b, _, rfl⟩
    rfl

theorem countD_robust (s s2 : SignalName) (c : Nat) (hs : List Handler) :
    countD s (send_robust_and_log_errors s2 c hs) = if s2 = s then 1 else 0 := by
  unfold send_robust_and_log_errors
  rw [List.cons_append, countD_cons, countD_robustTail]
  by_cases hss : s2 = s <;> simp [isDispatchOn, hss]

theorem countDM_robust (s : SignalName) (m : Mode) (s2 : SignalName) (c : Nat)
    (hs : List Handler) :
    countDM s m (send_robust_and_log_errors s2 c hs) =
      if s2 = s ∧ m = Mode.robust then 1 else 0 := by
  unfold send_robust_and_log_errors
  rw [List.cons_append, countDM_cons, countDM_robustTail]
  cases m <;> by_cases hss : s2 = s <;> simp [isDispatchM, hss]

theorem countD_realCall (s : SignalName) : countD s [Event.realCall] = 0 := rfl

theorem countDM_realCall (s : SignalName) (m : Mode) :
    countDM s m [Event.realCall] = 0 := rfl

theorem runStrict_noFail (s : SignalName) (hs : List Handler)
    (h : ∀ x ∈ hs, x.fails = false) :
    runStrict s hs = (hs.map (fun x => Event.handlerRun s x.hid), none) := by
  induction hs with
  | nil => rfl
  | cons a t ih =>
    have ha : a.fails = false := h a (List.mem_cons_self a t)
    have ht : ∀ x ∈ t, x.fails = false := fun x hx => h x (List.mem_cons_of_mem a hx)
    simp [runStrict, ha, ih ht]

theorem runStrict_firstFail (s : SignalName) (pref : List Handler) (b : Handler)
    (suff : List Handler) (hp : ∀ x ∈ pref, x.fails = false)
    (hf : b.fails = true) :
    runStrict s (pref ++ b :: suff) =
      (pref.map (fun x => Event.handlerRun s x.hid) ++ [Event.handlerRun s b.hid],
       some (Err.handlerErr s b.hid)) := by
  induction pref with
  | nil => simp [runStrict, hf]
  | cons a t ih =>
    have ha : a.fails = false := hp a (List.mem_cons_self a t)
    have ht : ∀ x ∈ t, x.fails = false := fun x hx => hp x (List.mem_cons_of_mem a hx)
    simp [runStrict, ha, ih ht]

theorem dispatchBeforeReal_head (s : SignalName) (m : Mode) (c : Nat)
    (rest : List Event) :
    dispatchBeforeReal s (Event.dispatchStart s m c :: rest) = true := by
  simp [dispatchBeforeReal]

theorem dispatchAfterReal_append (s : SignalName) (l1 l2 : List Event)
    (h : Event.realCall ∉ l1) :
    dispatchAfterReal s (l1 ++ l2) = dispatchAfterReal s l2 := by
  induction l1 with
  | nil => rfl
  | cons e t ih =>
    have he : e ≠ Event.realCall := fun heq => h (heq ▸ List.mem_cons_self e t)
    have ht : Event.realCall ∉ t := fun hm => h (List.mem_cons_of_mem e hm)
    cases e with
    | dispatchStart a b c => simpa [dispatchAfterReal] using ih ht
    | handlerRun a b => simpa [dispatchAfterReal] using ih ht
    | realCall => exact absurd rfl he
    | logLine ln => simpa [dispatchAfterReal] using ih ht

theorem dispatchAfterReal_realCons (s : SignalName) (rest : List Event) :
    dispatchAfterReal s (Event.realCall :: rest) = containsDispatch s rest := rfl

theorem dispatchAfterReal_consDispatch (s t : SignalName) (m : Mode) (c : Nat)
    (rest : List Event) :
    dispatchAfterReal s (Event.dispatchStart t m c :: rest) =
      dispatchAfterReal s rest := rfl

theorem containsDispatch_robust (s : SignalName) (c : Nat)
    (hs : List Handler) :
    containsDispatch s (send_robust_and_log_errors s c hs) = true := by
  simp [containsDispatch, send_robust_and_log_errors, isDispatchOn]

theorem containsDispatch_robust_self (s : SignalName) (c : Nat)
    (hs : List Handler) (rest : List Event) :
    containsDispatch s (send_robust_and_log_errors s c hs ++ rest) = true := by
  simp [containsDispatch, send_robust_and_log_errors, isDispatchOn]

theorem firstDispatchBefore_skip (s1 s2 : SignalName) (l1 l2 : List Event)
    (h : ∀ e ∈ l1, isDispatchOn s1 e = false ∧ isDispatchOn s2 e = false) :
    firstDispatchBefore s1 s2 (l1 ++ l2) = firstDispatchBefore s1 s2 l2 := by
  induction l1 with
  | nil => rfl
  | cons e t ih =>
    have he := h e (List.mem_cons_self e t)
    have ht : ∀ x ∈ t, isDispatchOn s1 x = false ∧ isDispatchOn s2 x = false :=
      fun x hx => h x (List.mem_cons_of_mem e hx)
    cases e with
    | dispatchStart a b c =>
      have h1 : a ≠ s1 := by
        intro hx
        have := he.1
        simp [isDispatchOn, hx] at this
      have h2 : a ≠ s2 := by
        intro hx
        have := he.2
        simp [isDispatchOn, hx] at this
      simpa [firstDispatchBefore, h1, h2] using ih ht
    | handlerRun a b => simpa [firstDispatchBefore] using ih ht
    | realCall => simpa [firstDispatchBefore] using ih ht
    | logLine ln => simpa [firstDispatchBefore] using ih ht

theorem firstDispatchBefore_head (s1 s2 : SignalName) (m : Mode) (c : Nat)
    (rest : List Event) :
    firstDispatchBefore s1 s2 (Event.dispatchStart s1 m c :: rest) = true := by
  simp [firstDispatchBefore]

theorem firstDispatchBefore_consOther (s1 s2 t : SignalName) (m : Mode)
    (c : Nat) (rest : List Event) (h1 : t ≠ s1) (h2 : t ≠ s2) :
    firstDispatchBefore s1 s2 (Event.dispatchStart t m c :: rest) =
      firstDispatchBefore s1 s2 rest := by
  simp [firstDispatchBefore, h1, h2]

theorem firstDispatchBefore_consReal (s1 s2 : SignalName)
    (rest : List Event) :
    firstDispatchBefore s1 s2 (Event.realCall :: rest) =
      firstDispatchBefore s1 s2 rest := rfl

theorem containsDispatch_append (s : SignalName) (l1 l2 : List Event) :
    containsDispatch s (l1 ++ l2) =
      (containsDispatch s l1 || containsDispatch s l2) := by
  simp [containsDispatch, List.any_append]

theorem firstDispatchBefore_robust_self (s1 s2 : SignalName) (c : Nat)
    (hs : List Handler) (rest : List Event) :
    firstDispatchBefore s1 s2
      (send_robust_and_log_errors s1 c hs ++ rest) = true := by
  unfold send_robust_and_log_errors
  simp only [List.cons_append]
  exact firstDispatchBefore_head s1 s2 Mode.robust c _

theorem commit_veto (signals : DatabaseSignals) (connections : String → Nat)
    (real : RealOp) (u : Option String) (st : TxnState) (e : Err)
    (h : (runStrict SignalName.pre_commit signals.pre_commit).2 = some e) :
    commit signals connections real u st =
      ⟨Event.dispatchStart SignalName.pre_commit Mode.strict (conn connections u)
        :: (runStrict SignalName.pre_commit signals.pre_commit).1,
       st, some e⟩ := by
  rcases hp : runStrict SignalName.pre_commit signals.pre_commit with ⟨a, b⟩
  rw [hp] at h
  replace h : b = some e := h
  subst h
  simp [commit, sendStrict, hp]

theorem commit_opFail (signals : DatabaseSignals) (connections : String → Nat)
    (real : RealOp) (u : Option String) (st st2 : TxnState) (code : Nat)
    (hok : (runStrict SignalName.pre_commit signals.pre_commit).2 = none)
    (hr : real st = (st2, some code)) :
    commit signals connections real u st =
      ⟨(Event.dispatchStart SignalName.pre_commit Mode.strict (conn connections u)
          :: (runStrict SignalName.pre_commit signals.pre_commit).1)
        ++ [Event.realCall],
       st2, some (Err.opErr code)⟩ := by
  rcases hp : runStrict SignalName.pre_commit signals.pre_commit with ⟨a, b⟩
  rw [hp] at hok
  replace hok : b = none := hok
  subst hok
  simp [commit, sendStrict, hp, hr]

theorem commit_success (signals : DatabaseSignals) (connections : String → Nat)
    (real : RealOp) (u : Option String) (st st2 : TxnState)
    (hok : (runStrict SignalName.pre_commit signals.pre_commit).2 = none)
    (hr : real st = (st2, none)) :
    commit signals connections real u st =
      ⟨(Event.dispatchStart SignalName.pre_commit Mode.strict (conn connections u)
          :: (runStrict SignalName.pre_commit signals.pre_commit).1)
        ++ [Event.realCall]
        ++ send_robust_and_log_errors SignalName.post_commit (conn connections u)
            signals.post_commit,
       st2, none⟩ := by
  rcases hp : runStrict SignalName.pre_commit signals.pre_commit with ⟨a, b⟩
  rw [hp] at hok
  replace hok : b = none := hok
  subst hok
  simp [commit, sendStrict, hp, hr]

theorem cum_not_managed (signals : DatabaseSignals) (connections : String → Nat)
    (real : RealOp) (u : Option String) (st : TxnState)
    (h : st.managed = false) :
    commit_unless_managed signals connections real u st =
      commit signals connections real u st := by
  simp [commit_unless_managed, commit, h]

theorem cum_managed (signals : DatabaseSignals) (connections : String → Nat)
    (real : RealOp) (u : Option String) (st : TxnState)
    (h : st.managed = true) :
    commit_unless_managed signals connections real u st =
      ⟨[Event.realCall], (real st).1, ((real st).2).map Err.opErr⟩ := by
  rcases hr : real st with ⟨st2, e⟩
  simp [commit_unless_managed, h, hr]

theorem enter_veto (signals : DatabaseSignals) (connections : String → Nat)
    (real : RealOp) (mf : Bool) (u : Option String) (st : TxnState) (e : Err)
    (h : (runStrict SignalName.pre_transaction_management
        signals.pre_transaction_management).2 = some e) :
    enter_transaction_management signals connections real mf u st =
      ⟨Event.dispatchStart SignalName.pre_transaction_management Mode.strict
          (conn connections u)
        :: (runStrict SignalName.pre_transaction_management
            signals.pre_transaction_management).1,
       st, some e⟩ := by
  rcases hp : runStrict SignalName.pre_transaction_management
      signals.pre_transaction_management with ⟨a, b⟩
  rw [hp] at h
  replace h : b = some e := h
  subst h
  simp [enter_transaction_management, sendStrict, hp]

theorem enter_ok (signals : DatabaseSignals) (connections : String → Nat)
    (real : RealOp) (mf : Bool) (u : Option String) (st : TxnState)
    (hok : (runStrict SignalName.pre_transaction_management
        signals.pre_transaction_management).2 = none) :
    enter_transaction_management signals connections real mf u st =
      ⟨(Event.dispatchStart SignalName.pre_transaction_management Mode.strict
          (conn connections u)
        :: (runStrict SignalName.pre_transaction_management
            signals.pre_transaction_management).1)
        ++ [Event.realCall],
       (real st).1, ((real st).2).map Err.opErr⟩ := by
  rcases hp : runStrict SignalName.pre_transaction_management
      signals.pre_transaction_management with ⟨a, b⟩
  rw [hp] at hok
  replace hok : b = none := hok
  subst hok
  rcases hr : real st with ⟨st2, er⟩
  simp [enter_transaction_management, sendStrict, hp, hr]

theorem leave_no_bracket (flag12 : Bool) (signals : DatabaseSignals)
    (connections : String → Nat) (real : RealOp) (u : Option String)
    (st : TxnState) (h : (st.dirty && !flag12) = false) :
    leave_transaction_management flag12 signals connections real u st =
      ⟨[Event.realCall]
        ++ send_robust_and_log_errors SignalName.post_transaction_management
            (conn connections u) signals.post_transaction_management,
       (real st).1, ((real st).2).map Err.opErr⟩ := by
  rcases hr : real st with ⟨st2, e⟩
  simp [leave_transaction_management, h, hr]

theorem leave_veto (flag12 : Bool) (signals : DatabaseSignals)
    (connections : String → Nat) (real : RealOp) (u : Option String)
    (st : TxnState) (e : Err) (hc : (st.dirty && !flag12) = true)
    (h : (runStrict SignalName.pre_rollback signals.pre_rollback).2 = some e) :
    leave_transaction_management flag12 signals connections real u st =
      ⟨Event.dispatchStart SignalName.pre_rollback Mode.strict
          (conn connections u)
        :: (runStrict SignalName.pre_rollback signals.pre_rollback).1,
       st, some e⟩ := by
  rcases hp : runStrict SignalName.pre_rollback signals.pre_rollback with ⟨a, b⟩
  rw [hp] at h
  replace h : b = some e := h
  subst h
  simp [leave_transaction_management, sendStrict, hc, hp]

theorem leave_bracket (flag12 : Bool) (signals : DatabaseSignals)
    (connections : String → Nat) (real : RealOp) (u : Option String)
    (st : TxnState) (hc : (st.dirty && !flag12) = true)
    (hok : (runStrict SignalName.pre_rollback signals.pre_rollback).2 = none) :
    leave_transaction_management flag12 signals connections real u st =
      ⟨(Event.dispatchStart SignalName.pre_rollback Mode.strict
          (conn connections u)
        :: (runStrict SignalName.pre_rollback signals.pre_rollback).1)
        ++ [Event.realCall]
        ++ send_robust_and_log_errors SignalName.post_rollback
            (conn connections u) signals.post_rollback
        ++ send_robust_and_log_errors SignalName.post_transaction_management
            (conn connections u) signals.post_transaction_management,
       (real st).1, ((real st).2).map Err.opErr⟩ := by
  rcases hp : runStrict SignalName.pre_rollback signals.pre_rollback with ⟨a, b⟩
  rw [hp] at hok
  replace hok : b = none := hok
  subst hok
  rcases hr : real st with ⟨st2, er⟩
  simp [leave_transaction_management, sendStrict, hc, hp, hr]

theorem managed_commitCase (signals : DatabaseSignals)
    (connections : String → Nat) (real : RealOp) (u : Option String)
    (st : TxnState) (hd : st.dirty = true) :
    managed signals connections real false u st =
      commit signals connections real u st := by
  simp [managed, commit, hd]

theorem managed_skip (signals : DatabaseSignals) (connections : String → Nat)
    (real : RealOp) (flag : Bool) (u : Option String) (st : TxnState)
    (h : (!flag && st.dirty) = false) :
    managed signals connections real flag u st =
      ⟨[Event.realCall], (real st).1, ((real st).2).map Err.opErr⟩ := by
  rcases hr : real st with ⟨st2, e⟩
  simp [managed, h, hr]

theorem rollback_veto (signals : DatabaseSignals) (connections : String → Nat)
    (real : RealOp) (u : Option String) (st : TxnState) (e : Err)
    (h : (runStrict SignalName.pre_rollback signals.pre_rollback).2 = some e) :
    rollback signals connections real u st =
      ⟨Event.dispatchStart SignalName.pre_rollback Mode.strict
          (conn connections u)
        :: (runStrict SignalName.pre_rollback signals.pre_rollback).1,
       st, some e⟩ := by
  rcases hp : runStrict SignalName.pre_rollback signals.pre_rollback with ⟨a, b⟩
  rw [hp] at h
  replace h : b = some e := h
  subst h
  simp [rollback, sendStrict, hp]

theorem rollback_opFail (signals : DatabaseSignals) (connections : String → Nat)
    (real : RealOp) (u : Option String) (st st2 : TxnState) (code : Nat)
    (hok : (runStrict SignalName.pre_rollback signals.pre_rollback).2 = none)
    (hr : real st = (st2, some code)) :
    rollback signals connections real u st =
      ⟨(Event.dispatchStart SignalName.pre_rollback Mode.strict
          (conn connections u)
        :: (runStrict SignalName.pre_rollback signals.pre_rollback).1)
        ++ [Event.realCall],
       st2, some (Err.opErr code)⟩ := by
  rcases hp : runStrict SignalName.pre_rollback signals.pre_rollback with ⟨a, b⟩
  rw [hp] at hok
  replace hok : b = none := hok
  subst hok
  simp [rollback, sendStrict, hp, hr]

theorem rollback_success (signals : DatabaseSignals)
    (connections : String → Nat) (real : RealOp) (u : Option String)
    (st st2 : TxnState)
    (hok : (runStrict SignalName.pre_rollback signals.pre_rollback).2 = none)
    (hr : real st = (st2, none)) :
    rollback signals connections real u st =
      ⟨(Event.dispatchStart SignalName.pre_rollback Mode.strict
          (conn connections u)
        :: (runStrict SignalName.pre_rollback signals.pre_rollback).1)
        ++ [Event.realCall]
        ++ send_robust_and_log_errors SignalName.post_rollback
            (conn connections u) signals.post_rollback,
       st2, none⟩ := by
  rcases hp : runStrict SignalName.pre_rollback signals.pre_rollback with ⟨a, b⟩
  rw [hp] at hok
  replace hok : b = none := hok
  subst hok
  simp [rollback, sendStrict, hp, hr]

theorem rum_not_managed (signals : DatabaseSignals)
    (connections : String → Nat) (real : RealOp) (u : Option String)
    (st : TxnState) (h : st.managed = false) :
    rollback_unless_managed signals connections real u st =
      rollback signals connections real u st := by
  simp [rollback_unless_managed, rollback, h]

theorem rum_managed (signals : DatabaseSignals) (connections : String → Nat)
    (real : RealOp) (u : Option String) (st : TxnState)
    (h : st.managed = true) :
    rollback_unless_managed signals connections real u st =
      ⟨[Event.realCall], (real st).1, ((real st).2).map Err.opErr⟩ := by
  rcases hr : real st with ⟨st2, e⟩
  simp [rollback_unless_managed, h, hr]

theorem realCall_not_mem_vetoTrace (s : SignalName) (m : Mode) (c : Nat)
    (hs : List Handler) :
    Event.realCall ∉ Event.dispatchStart s m c :: (runStrict s hs).1 := by
  intro hm
  rcases List.mem_cons.1 hm with hm | hm
  · exact Event.noConfusion hm
  · exact realCall_not_mem_runStrict _ _ hm

theorem countD_nil (s : SignalName) : countD s [] = 0 := rfl

theorem countDM_nil (s : SignalName) (m : Mode) : countDM s m [] = 0 := rfl

theorem countD_commit_other (signals : DatabaseSignals)
    (connections : String → Nat) (real : RealOp) (u : Option String)
    (st : TxnState) (s : SignalName) (h1 : SignalName.pre_commit ≠ s)
    (h2 : SignalName.post_commit ≠ s) :
    countD s (commit signals connections real u st).trace = 0 := by
  rcases hb : (runStrict SignalName.pre_commit signals.pre_commit).2 with _ | e
  · rcases hr : real st with ⟨st2, er⟩
    cases er with
    | none =>
      rw [commit_success signals connections real u st st2 hb hr]
      simp [List.cons_append, List.append_assoc, countD_cons, countD_append,
        countD_nil, countD_runStrict, countD_robust, isDispatchOn, h1, h2]
    | some code =>
      rw [commit_opFail signals connections real u st st2 code hb hr]
      simp [List.cons_append, List.append_assoc, countD_cons, countD_append,
        countD_nil, countD_runStrict, countD_robust, isDispatchOn, h1]
  · rw [commit_veto signals connections real u st e hb]
    simp [countD_cons, countD_runStrict, isDispatchOn, h1]

theorem countD_cum_other (signals : DatabaseSignals)
    (connections : String → Nat) (real : RealOp) (u : Option String)
    (st : TxnState) (s : SignalName) (h1 : SignalName.pre_commit ≠ s)
    (h2 : SignalName.post_commit ≠ s) :
    countD s (commit_unless_managed signals connections real u st).trace = 0 := by
  by_cases hm : st.managed = true
  · rw [cum_managed signals connections real u st hm]
    rfl
  · simp only [Bool.not_eq_true] at hm
    rw [cum_not_managed signals connections real u st hm]
    exact countD_commit_other signals connections real u st s h1 h2

theorem countD_enter_other (signals : DatabaseSignals)
    (connections : String → Nat) (real : RealOp) (mf : Bool)
    (u : Option String) (st : TxnState) (s : SignalName)
    (h1 : SignalName.pre_transaction_management ≠ s) :
    countD s
      (enter_transaction_management signals connections real mf u st).trace = 0 := by
  rcases hb : (runStrict SignalName.pre_transaction_management
      signals.pre_transaction_management).2 with _ | e
  · rw [enter_ok signals connections real mf u st hb]
    simp [List.cons_append, List.append_assoc, countD_cons, countD_append,
      countD_nil, countD_runStrict, isDispatchOn, h1]
  · rw [enter_veto signals connections real mf u st e hb]
    simp [countD_cons, countD_runStrict, isDispatchOn, h1]

theorem countD_leave_other (flag12 : Bool) (signals : DatabaseSignals)
    (connections : String → Nat) (real : RealOp) (u : Option String)
    (st : TxnState) (s : SignalName) (h1 : SignalName.pre_rollback ≠ s)
    (h2 : SignalName.post_rollback ≠ s)
    (h3 : SignalName.post_transaction_management ≠ s) :
    countD s
      (leave_transaction_management flag12 signals connections real u st).trace = 0 := by
  by_cases hc : (st.dirty && !flag12) = true
  · rcases hb : (runStrict SignalName.pre_rollback signals.pre_rollback).2
        with _ | e
    · rw [leave_bracket flag12 signals connections real u st hc hb]
      simp [List.cons_append, List.append_assoc, countD_cons, countD_append,
        countD_nil, countD_runStrict, countD_robust, isDispatchOn, h1, h2, h3]
    · rw [leave_veto flag12 signals connections real u st e hc hb]
      simp [countD_cons, countD_runStrict, isDispatchOn, h1]
  · simp only [Bool.not_eq_true] at hc
    rw [leave_no_bracket flag12 signals connections real u st hc]
    simp [List.cons_append, List.append_assoc, countD_cons, countD_append,
      countD_nil, countD_robust, isDispatchOn, h3]

theorem countD_managed_other (signals : DatabaseSignals)
    (connections : String → Nat) (real : RealOp) (flag : Bool)
    (u : Option String) (st : TxnState) (s : SignalName)
    (h1 : SignalName.pre_commit ≠ s) (h2 : SignalName.post_commit ≠ s) :
    countD s (managed signals connections real flag u st).trace = 0 := by
  by_cases hc : (!flag && st.dirty) = true
  · have hf : flag = false := by
      cases flag
      · rfl
      · simp at hc
    have hd : st.dirty = true := (Bool.and_eq_true_iff.1 hc).2
    subst hf
    rw [managed_commitCase signals connections real u st hd]
    exact countD_commit_other signals connections real u st s h1 h2
  · simp only [Bool.not_eq_true] at hc
    rw [managed_skip signals connections real flag u st hc]
    rfl

theorem countD_rollback_other (signals : DatabaseSignals)
    (connections : String → Nat) (real : RealOp) (u : Option String)
    (st : TxnState) (s : SignalName) (h1 : SignalName.pre_rollback ≠ s)
    (h2 : SignalName.post_rollback ≠ s) :
    countD s (rollback signals connections real u st).trace = 0 := by
  rcases hb : (runStrict SignalName.pre_rollback signals.pre_rollback).2
      with _ | e
  · rcases hr : real st with ⟨st2, er⟩
    cases er with
    | none =>
      rw [rollback_success signals connections real u st st2 hb hr]
      simp [List.cons_append, List.append_assoc, countD_cons, countD_append,
        countD_nil, countD_runStrict, countD_robust, isDispatchOn, h1, h2]
    | some code =>
      rw [rollback_opFail signals connections real u st st2 code hb hr]
      simp [List.cons_append, List.append_assoc, countD_cons, countD_append,
        countD_nil, countD_runStrict, countD_robust, isDispatchOn, h1]
  · rw [rollback_veto signals connections real u st e hb]
    simp [countD_cons, countD_runStrict, isDispatchOn, h1]

theorem countD_rum_other (signals : DatabaseSignals)
    (connections : String → Nat) (real : RealOp) (u : Option String)
    (st : TxnState) (s : SignalName) (h1 : SignalName.pre_rollback ≠ s)
    (h2 : SignalName.post_rollback ≠ s) :
    countD s (rollback_unless_managed signals connections real u st).trace = 0 := by
  by_cases hm : st.managed = true
  · rw [rum_managed signals connections real u st hm]
    rfl
  · simp only [Bool.not_eq_true] at hm
    rw [rum_not_managed signals connections real u st hm]
    exact countD_rollback_other signals connections real u st s h1 h2

/-- C3: for every wrapped operation and every argument list, when no
handler is subscribed to any channel, the wrapped operation produces the
same external behavior as the unwrapped original: the resulting
transaction state and the propagated failure (the seven wrapped Django
targets all return None, so state and failure are the entire external
behavior). -/
theorem claim_C3 (connections : String → Nat) (real : RealOp)
    (u : Option String) (st : TxnState) (mf flag flag12 : Bool) :
    ((commit noSubscribers connections real u st).state,
      (commit noSubscribers connections real u st).err) =
        unwrappedCall real st ∧
    ((commit_unless_managed noSubscribers connections real u st).state,
      (commit_unless_managed noSubscribers connections real u st).err) =
        unwrappedCall real st ∧
    ((enter_transaction_management noSubscribers connections real mf u st).state,
      (enter_transaction_management noSubscribers connections real mf u st).err) =
        unwrappedCall real st ∧
    ((leave_transaction_management flag12 noSubscribers connections real u st).state,
      (leave_transaction_management flag12 noSubscribers connections real u st).err) =
        unwrappedCall real st ∧
    ((managed noSubscribers connections real flag u st).state,
      (managed noSubscribers connections real flag u st).err) =
        unwrappedCall real st ∧
    ((rollback noSubscribers connections real u st).state,
      (rollback noSubscribers connections real u st).err) =
        unwrappedCall real st ∧
    ((rollback_unless_managed noSubscribers connections real u st).state,
      (rollback_unless_managed noSubscribers connections real u st).err) =
        unwrappedCall real st := by
  rcases hr : real st with ⟨st2, e⟩
  rcases st with ⟨d, m⟩
  cases d <;> cases m <;> cases flag <;> cases flag12 <;> cases e <;>
    simp [commit, commit_unless_managed, enter_transaction_management,
      leave_transaction_management, managed, rollback,
      rollback_unless_managed, sendStrict, runStrict, noSubscribers,
      unwrappedCall, hr]

/-- C4: every call to the wrapped commit dispatches pre_commit (strict)
before the real commit runs; when the real commit raises, no post_commit
dispatch happens and the failure propagates unmodified; when the real
commit returns, post_commit is dispatched once, robust, after the real
call. -/
theorem claim_C4 (signals : DatabaseSignals) (connections : String → Nat)
    (real : RealOp) (u : Option String) (st : TxnState) :
    dispatchBeforeReal SignalName.pre_commit
      (commit signals connections real u st).trace = true ∧
    countDM SignalName.pre_commit Mode.strict
      (commit signals connections real u st).trace = 1 ∧
    (∀ st2 code,
      (runStrict SignalName.pre_commit signals.pre_commit).2 = none →
      real st = (st2, some code) →
      (commit signals connections real u st).err = some (Err.opErr code) ∧
      countD SignalName.post_commit
        (commit signals connections real u st).trace = 0) ∧
    (∀ st2,
      (runStrict SignalName.pre_commit signals.pre_commit).2 = none →
      real st = (st2, none) →
      (commit signals connections real u st).err = none ∧
      countDM SignalName.post_commit Mode.robust
        (commit signals connections real u st).trace = 1 ∧
      dispatchAfterReal SignalName.post_commit
        (commit signals connections real u st).trace = true) := by
  refine ⟨?_, ?_, ?_, ?_⟩
  · rcases hb : (runStrict SignalName.pre_commit signals.pre_commit).2 with _ | e
    · rcases hr : real st with ⟨st2, er⟩
      cases er with
      | none =>
        rw [commit_success signals connections real u st st2 hb hr]
        simp only [List.cons_append]
        exact dispatchBeforeReal_head _ _ _ _
      | some code =>
        rw [commit_opFail signals connections real u st st2 code hb hr]
        simp only [List.cons_append]
        exact dispatchBeforeReal_head _ _ _ _
    · rw [commit_veto signals connections real u st e hb]
      exact dispatchBeforeReal_head _ _ _ _
  · rcases hb : (runStrict SignalName.pre_commit signals.pre_commit).2 with _ | e
    · rcases hr : real st with ⟨st2, er⟩
      cases er with
      | none =>
        rw [commit_success signals connections real u st st2 hb hr]
        simp [List.cons_append, List.append_assoc, countDM_cons, countDM_append,
          countDM_nil, countDM_runStrict, countDM_robust, isDispatchM]
      | some code =>
        rw [commit_opFail signals connections real u st st2 code hb hr]
        simp [List.cons_append, List.append_assoc, countDM_cons, countDM_append,
          countDM_nil, countDM_runStrict, countDM_robust, isDispatchM]
    · rw [commit_veto signals connections real u st e hb]
      simp [countDM_cons, countDM_runStrict, isDispatchM]
  · intro st2 code hb hr
    rw [commit_opFail signals connections real u st st2 code hb hr]
    constructor
    · rfl
    · simp [List.cons_append, List.append_assoc, countD_cons, countD_append,
        countD_nil, countD_runStrict, countD_robust, isDispatchOn]
  · intro st2 hb hr
    rw [commit_success signals connections real u st st2 hb hr]
    refine ⟨rfl, ?_, ?_⟩
    · simp [List.cons_append, List.append_assoc, countDM_cons, countDM_append,
        countDM_nil, countDM_runStrict, countDM_robust, isDispatchM]
    · simp only [List.cons_append, List.append_assoc, List.nil_append,
        List.singleton_append]
      rw [dispatchAfterReal_consDispatch,
        dispatchAfterReal_append _ _ _ (realCall_not_mem_runStrict _ _),
        dispatchAfterReal_realCons]
      exact containsDispatch_robust _ _ _

/-- Witness for C4 at concrete inputs: a failing real commit propagates
as opErr 5 with no post_commit dispatch; a succeeding real commit returns
no error and dispatches post_commit exactly once. -/
theorem claim_C4_witness :
    ((commit noSubscribers (fun _ => 0) (fun s => (s, some 5)) none
        ⟨true, true⟩).err = some (Err.opErr 5) ∧
      countD SignalName.post_commit (commit noSubscribers (fun _ => 0)
        (fun s => (s, some 5)) none ⟨true, true⟩).trace = 0) ∧
    ((commit noSubscribers (fun _ => 0) (fun s => (s, none)) none
        ⟨true, true⟩).err = none ∧
      countDM SignalName.post_commit Mode.robust (commit noSubscribers
        (fun _ => 0) (fun s => (s, none)) none ⟨true, true⟩).trace = 1) := by
  constructor
  · exact (claim_C4 noSubscribers (fun _ => 0) (fun s => (s, some 5)) none
      ⟨true, true⟩).2.2.1 ⟨true, true⟩ 5 rfl rfl
  · have h := (claim_C4 noSubscribers (fun _ => 0) (fun s => (s, none)) none
      ⟨true, true⟩).2.2.2 ⟨true, true⟩ rfl rfl
    exact ⟨h.1, h.2.1⟩

/-- C5: the wrapped commit_unless_managed is bracketed exactly as the
wrapped commit when the transaction is not managed, and dispatches no
notification on any channel when it is managed. -/
theorem claim_C5 (signals : DatabaseSignals) (connections : String → Nat)
    (real : RealOp) (u : Option String) (st : TxnState) :
    (st.managed = false →
      commit_unless_managed signals connections real u st =
        commit signals connections real u st) ∧
    (st.managed = true →
      ∀ s, countD s
        (commit_unless_managed signals connections real u st).trace = 0) := by
  constructor
  · exact fun h => cum_not_managed signals connections real u st h
  · intro h s
    rw [cum_managed signals connections real u st h]
    rfl

/-- Witness for C5: not managed gives the commit bracket, managed gives
zero dispatches on pre_commit. -/
theorem claim_C5_witness :
    (commit_unless_managed noSubscribers (fun _ => 0) (fun s => (s, none))
        none ⟨false, false⟩ =
      commit noSubscribers (fun _ => 0) (fun s => (s, none)) none
        ⟨false, false⟩) ∧
    countD SignalName.pre_commit (commit_unless_managed noSubscribers
      (fun _ => 0) (fun s => (s, none)) none ⟨false, true⟩).trace = 0 := by
  constructor
  · exact (claim_C5 noSubscribers (fun _ => 0) (fun s => (s, none)) none
      ⟨false, false⟩).1 rfl
  · exact (claim_C5 noSubscribers (fun _ => 0) (fun s => (s, none)) none
      ⟨false, true⟩).2 rfl SignalName.pre_commit

/-- C6: the wrapped managed(flag): turning management off while dirty is
bracketed exactly as the wrapped commit (strict pre_commit before, robust
post_commit after); turning management on, or a clean transaction,
dispatches no notification on any channel. -/
theorem claim_C6 (signals : DatabaseSignals) (connections : String → Nat)
    (real : RealOp) (flag : Bool) (u : Option String) (st : TxnState) :
    (flag = false → st.dirty = true →
      managed signals connections real flag u st =
        commit signals connections real u st) ∧
    (flag = true ∨ st.dirty = false →
      ∀ s, countD s (managed signals connections real flag u st).trace = 0) := by
  constructor
  · intro hf hd
    subst hf
    exact managed_commitCase signals connections real u st hd
  · intro h s
    have hc : (!flag && st.dirty) = false := by
      rcases h with h | h <;> simp [h]
    rw [managed_skip signals connections real flag u st hc]
    rfl

/-- Witness for C6: flag false while dirty gives the commit bracket; flag
true gives zero dispatches on pre_commit. -/
theorem claim_C6_witness :
    (managed noSubscribers (fun _ => 0) (fun s => (s, none)) false none
        ⟨true, true⟩ =
      commit noSubscribers (fun _ => 0) (fun s => (s, none)) none
        ⟨true, true⟩) ∧
    countD SignalName.pre_commit (managed noSubscribers (fun _ => 0)
      (fun s => (s, none)) true none ⟨true, true⟩).trace = 0 := by
  constructor
  · exact (claim_C6 noSubscribers (fun _ => 0) (fun s => (s, none)) false none
      ⟨true, true⟩).1 rfl rfl
  · exact (claim_C6 noSubscribers (fun _ => 0) (fun s => (s, none)) true none
      ⟨true, true⟩).2 (Or.inl rfl) SignalName.pre_commit

/-- C7: in a strict pre dispatch, the first failing handler prevents the
remaining handlers of that dispatch from being invoked; whenever a
strict pre dispatch of a wrapped operation fails, the wrapped
transaction-control call never executes (no realCall event, state
untouched) and the propagated error is the own failure of the handler (a
handlerErr, never a wrapped operation error). -/
theorem claim_C7 :
    (∀ (s : SignalName) (pref : List Handler) (b : Handler)
        (suff : List Handler),
      (∀ x ∈ pref, x.fails = false) → b.fails = true →
      runStrict s (pref ++ b :: suff) =
        (pref.map (fun x => Event.handlerRun s x.hid) ++
          [Event.handlerRun s b.hid], some (Err.handlerErr s b.hid))) ∧
    (∀ (s : SignalName) (hs : List Handler) (e : Err),
      (runStrict s hs).2 = some e → ∃ i, e = Err.handlerErr s i) ∧
    (∀ (signals : DatabaseSignals) (connections : String → Nat)
        (real : RealOp) (u : Option String) (st : TxnState) (e : Err),
      (runStrict SignalName.pre_commit signals.pre_commit).2 = some e →
      (commit signals connections real u st).err = some e ∧
      (commit signals connections real u st).state = st ∧
      Event.realCall ∉ (commit signals connections real u st).trace) ∧
    (∀ (signals : DatabaseSignals) (connections : String → Nat)
        (real : RealOp) (u : Option String) (st : TxnState) (e : Err),
      st.managed = false →
      (runStrict SignalName.pre_commit signals.pre_commit).2 = some e →
      (commit_unless_managed signals connections real u st).err = some e ∧
      (commit_unless_managed signals connections real u st).state = st ∧
      Event.realCall ∉
        (commit_unless_managed signals connections real u st).trace) ∧
    (∀ (signals : DatabaseSignals) (connections : String → Nat)
        (real : RealOp) (mf : Bool) (u : Option String) (st : TxnState)
        (e : Err),
      (runStrict SignalName.pre_transaction_management
        signals.pre_transaction_management).2 = some e →
      (enter_transaction_management signals connections real mf u st).err =
        some e ∧
      (enter_transaction_management signals connections real mf u st).state =
        st ∧
      Event.realCall ∉
        (enter_transaction_management signals connections real mf u st).trace) ∧
    (∀ (flag12 : Bool) (signals : DatabaseSignals)
        (connections : String → Nat) (real : RealOp) (u : Option String)
        (st : TxnState) (e : Err),
      (st.dirty && !flag12) = true →
      (runStrict SignalName.pre_rollback signals.pre_rollback).2 = some e →
      (leave_transaction_management flag12 signals connections real u st).err =
        some e ∧
      (leave_transaction_management flag12 signals connections real u st).state =
        st ∧
      Event.realCall ∉
        (leave_transaction_management flag12 signals connections real u st).trace) ∧
    (∀ (signals : DatabaseSignals) (connections : String → Nat)
        (real : RealOp) (flag : Bool) (u : Option String) (st : TxnState)
        (e : Err),
      (!flag && st.dirty) = true →
      (runStrict SignalName.pre_commit signals.pre_commit).2 = some e →
      (managed signals connections real flag u st).err = some e ∧
      (managed signals connections real flag u st).state = st ∧
      Event.realCall ∉ (managed signals connections real flag u st).trace) ∧
    (∀ (signals : DatabaseSignals) (connections : String → Nat)
        (real : RealOp) (u : Option String) (st : TxnState) (e : Err),
      (runStrict SignalName.pre_rollback signals.pre_rollback).2 = some e →
      (rollback signals connections real u st).err = some e ∧
      (rollback signals connections real u st).state = st ∧
      Event.realCall ∉ (rollback signals connections real u st).trace) ∧
    (∀ (signals : DatabaseSignals) (connections : String → Nat)
        (real : RealOp) (u : Option String) (st : TxnState) (e : Err),
      st.managed = false →
      (runStrict SignalName.pre_rollback signals.pre_rollback).2 = some e →
      (rollback_unless_managed signals connections real u st).err = some e ∧
      (rollback_unless_managed signals connections real u st).state = st ∧
      Event.realCall ∉
        (rollback_unless_managed signals connections real u st).trace) := by
  refine ⟨?_, ?_, ?_, ?_, ?_, ?_, ?_, ?_, ?_⟩
  · exact fun s pref b suff hp hf => runStrict_firstFail s pref b suff hp hf
  · intro s hs e h
    induction hs with
    | nil => simp [runStrict] at h
    | cons b t ih =>
      by_cases hf : b.fails
      · simp [runStrict, hf] at h
        exact ⟨b.hid, h.symm⟩
      · simp [runStrict, hf] at h
        exact ih h
  · intro signals connections real u st e h
    rw [commit_veto signals connections real u st e h]
    exact ⟨rfl, rfl, realCall_not_mem_vetoTrace _ _ _ _⟩
  · intro signals connections real u st e hm h
    rw [cum_not_managed signals connections real u st hm,
      commit_veto signals connections real u st e h]
    exact ⟨rfl, rfl, realCall_not_mem_vetoTrace _ _ _ _⟩
  · intro signals connections real mf u st e h
    rw [enter_veto signals connections real mf u st e h]
    exact ⟨rfl, rfl, realCall_not_mem_vetoTrace _ _ _ _⟩
  · intro flag12 signals connections real u st e hc h
    rw [leave_veto flag12 signals connections real u st e hc h]
    exact ⟨rfl, rfl, realCall_not_mem_vetoTrace _ _ _ _⟩
  · intro signals connections real flag u st e hc h
    have hcc : flag = false ∧ st.dirty = true := by
      constructor
      · cases flag
        · rfl
        · simp at hc
      · rcases Bool.and_eq_true_iff.1 hc with ⟨_, hd⟩
        exact hd
    rcases hcc with ⟨hf, hd⟩
    subst hf
    rw [managed_commitCase signals connections real u st hd,
      commit_veto signals connections real u st e h]
    exact ⟨rfl, rfl, realCall_not_mem_vetoTrace _ _ _ _⟩
  · intro signals connections real u st e h
    rw [rollback_veto signals connections real u st e h]
    exact ⟨rfl, rfl, realCall_not_mem_vetoTrace _ _ _ _⟩
  · intro signals connections real u st e hm h
    rw [rum_not_managed signals connections real u st hm,
      rollback_veto signals connections real u st e h]
    exact ⟨rfl, rfl, realCall_not_mem_vetoTrace _ _ _ _⟩

/-- Witness for C7: a failing handler in second position stops the third
handler; a commit whose only pre_commit handler fails propagates that
error of that handler without ever invoking the real commit. -/
theorem claim_C7_witness :
    (runStrict SignalName.pre_commit
        ([⟨1, false⟩] ++ (⟨2, true⟩ : Handler) :: [⟨3, false⟩]) =
      (([(⟨1, false⟩ : Handler)].map
          (fun x => Event.handlerRun SignalName.pre_commit x.hid)) ++
        [Event.handlerRun SignalName.pre_commit 2],
       some (Err.handlerErr SignalName.pre_commit 2))) ∧
    (commit ⟨[⟨2, true⟩], [], [], [], [], []⟩ (fun _ => 0)
        (fun s => (s, none)) none ⟨true, true⟩).err =
      some (Err.handlerErr SignalName.pre_commit 2) ∧
    Event.realCall ∉ (commit ⟨[⟨2, true⟩], [], [], [], [], []⟩ (fun _ => 0)
        (fun s => (s, none)) none ⟨true, true⟩).trace := by
  refine ⟨?_, ?_, ?_⟩
  · exact claim_C7.1 SignalName.pre_commit [⟨1, false⟩] ⟨2, true⟩ [⟨3, false⟩]
      (by decide) rfl
  · exact (claim_C7.2.2.1 ⟨[⟨2, true⟩], [], [], [], [], []⟩ (fun _ => 0)
      (fun s => (s, none)) none ⟨true, true⟩
      (Err.handlerErr SignalName.pre_commit 2) rfl).1
  · exact (claim_C7.2.2.1 ⟨[⟨2, true⟩], [], [], [], [], []⟩ (fun _ => 0)
      (fun s => (s, none)) none ⟨true, true⟩
      (Err.handlerErr SignalName.pre_commit 2) rfl).2.2

/-- C8: in a robust post dispatch every subscribed handler is invoked,
regardless of other handlers failing; the log lines emitted are exactly
one error-severity line per failed handler, of the shape
channel receiver "handler-repr" failed: failure-repr; and no handler
failure propagates to the caller of the wrapped operation (a successful commit
returns no error whatever its post_commit handlers do). -/
theorem claim_C8 :
    (∀ (s : SignalName) (c : Nat) (hs : List Handler) (b : Handler),
      b ∈ hs →
      Event.handlerRun s b.hid ∈ send_robust_and_log_errors s c hs) ∧
    (∀ (s : SignalName) (c : Nat) (hs : List Handler),
      (send_robust_and_log_errors s c hs).filter isLogEvent =
        (hs.filter (fun b => b.fails)).map
          (fun b => Event.logLine
            (logFormat (signalNameStr s) (receiverRepr b) (responseRepr b)))) ∧
    (∀ (signals : DatabaseSignals) (connections : String → Nat)
        (real : RealOp) (u : Option String) (st st2 : TxnState),
      (runStrict SignalName.pre_commit signals.pre_commit).2 = none →
      real st = (st2, none) →
      (commit signals connections real u st).err = none) := by
  refine ⟨?_, ?_, ?_⟩
  · intro s c hs b hb
    unfold send_robust_and_log_errors
    exact List.mem_append.2
      (Or.inl (List.mem_cons_of_mem _ (List.mem_map.2 ⟨b, hb, rfl⟩)))
  · intro s c hs
    unfold send_robust_and_log_errors
    have hA : (hs.map (fun b => Event.handlerRun s b.hid)).filter
        isLogEvent = [] := by
      apply filter_eq_nil_of
      intro e he
      rcases List.mem_map.1 he with ⟨b, _, rfl⟩
      rfl
    have hB : ((hs.filter (fun b => b.fails)).map
        (fun b => Event.logLine (logFormat (signalNameStr s) (receiverRepr b)
          (responseRepr b)))).filter isLogEvent =
        (hs.filter (fun b => b.fails)).map
          (fun b => Event.logLine (logFormat (signalNameStr s) (receiverRepr b)
            (responseRepr b))) := by
      apply List.filter_eq_self.2
      intro e he
      rcases List.mem_map.1 he with ⟨b, _, rfl⟩
      rfl
    rw [List.cons_append, List.filter_cons, List.filter_append, hA, hB]
    rfl
  · intro signals connections real u st st2 hok hr
    rw [commit_success signals connections real u st st2 hok hr]

/-- Witness for C8: with a failing first handler the second handler is
still invoked, and a successful commit whose only post_commit handler
fails still reports no error to the caller. -/
theorem claim_C8_witness :
    Event.handlerRun SignalName.post_commit 2 ∈
      send_robust_and_log_errors SignalName.post_commit 0
        [⟨1, true⟩, ⟨2, false⟩] ∧
    (commit ⟨[], [⟨7, true⟩], [], [], [], []⟩ (fun _ => 0) (fun s => (s, none))
        none ⟨true, true⟩).err = none := by
  constructor
  · exact claim_C8.1 SignalName.post_commit 0 [⟨1, true⟩, ⟨2, false⟩]
      ⟨2, false⟩ (by decide)
  · exact claim_C8.2.2 ⟨[], [⟨7, true⟩], [], [], [], []⟩ (fun _ => 0)
      (fun s => (s, none)) none ⟨true, true⟩ ⟨true, true⟩ rfl rfl

/-- C9: pre_transaction_management is dispatched exactly once by every
enter call, before the real enter, and by no other wrapped operation;
post_transaction_management is dispatched exactly once by every leave
call whose own strict pre_rollback dispatch raised no veto (a vetoed
leave never reaches the real leave, so the enter/leave pair is not
completed), and by no other wrapped operation — all independent of the
dirty flag, of the version flag, of the commit/rollback outcome, and of
nesting depth (the counts are per call). -/
theorem claim_C9 (signals : DatabaseSignals) (connections : String → Nat)
    (real : RealOp) (mf flag flag12 : Bool) (u : Option String)
    (st : TxnState) :
    (countD SignalName.pre_transaction_management
        (enter_transaction_management signals connections real mf u st).trace = 1 ∧
      countD SignalName.post_transaction_management
        (enter_transaction_management signals connections real mf u st).trace = 0 ∧
      dispatchBeforeReal SignalName.pre_transaction_management
        (enter_transaction_management signals connections real mf u st).trace = true) ∧
    ((∀ x ∈ signals.pre_rollback, x.fails = false) →
      countD SignalName.post_transaction_management
        (leave_transaction_management flag12 signals connections real u st).trace = 1 ∧
      countD SignalName.pre_transaction_management
        (leave_transaction_management flag12 signals connections real u st).trace = 0) ∧
    (countD SignalName.pre_transaction_management
        (commit signals connections real u st).trace = 0 ∧
      countD SignalName.post_transaction_management
        (commit signals connections real u st).trace = 0) ∧
    (countD SignalName.pre_transaction_management
        (commit_unless_managed signals connections real u st).trace = 0 ∧
      countD SignalName.post_transaction_management
        (commit_unless_managed signals connections real u st).trace = 0) ∧
    (countD SignalName.pre_transaction_management
        (managed signals connections real flag u st).trace = 0 ∧
      countD SignalName.post_transaction_management
        (managed signals connections real flag u st).trace = 0) ∧
    (countD SignalName.pre_transaction_management
        (rollback signals connections real u st).trace = 0 ∧
      countD SignalName.post_transaction_management
        (rollback signals connections real u st).trace = 0) ∧
    (countD SignalName.pre_transaction_management
        (rollback_unless_managed signals connections real u st).trace = 0 ∧
      countD SignalName.post_transaction_management
        (rollback_unless_managed signals connections real u st).trace = 0) := by
  refine ⟨⟨?_, ?_, ?_⟩, ?_, ?_, ?_, ?_, ?_, ?_⟩
  · rcases hb : (runStrict SignalName.pre_transaction_management
        signals.pre_transaction_management).2 with _ | e
    · rw [enter_ok signals connections real mf u st hb]
      simp [List.cons_append, List.append_assoc, countD_cons, countD_append,
        countD_nil, countD_runStrict, isDispatchOn]
    · rw [enter_veto signals connections real mf u st e hb]
      simp [countD_cons, countD_runStrict, isDispatchOn]
  · exact countD_enter_other signals connections real mf u st _ (by decide)
  · rcases hb : (runStrict SignalName.pre_transaction_management
        signals.pre_transaction_management).2 with _ | e
    · rw [enter_ok signals connections real mf u st hb]
      simp only [List.cons_append]
      exact dispatchBeforeReal_head _ _ _ _
    · rw [enter_veto signals connections real mf u st e hb]
      exact dispatchBeforeReal_head _ _ _ _
  · intro hnv
    have hok : (runStrict SignalName.pre_rollback signals.pre_rollback).2 =
        none := by
      rw [runStrict_noFail SignalName.pre_rollback signals.pre_rollback hnv]
    constructor
    · by_cases hc : (st.dirty && !flag12) = true
      · rw [leave_bracket flag12 signals connections real u st hc hok]
        simp [List.cons_append, List.append_assoc, countD_cons, countD_append,
          countD_nil, countD_runStrict, countD_robust, isDispatchOn]
      · simp only [Bool.not_eq_true] at hc
        rw [leave_no_bracket flag12 signals connections real u st hc]
        simp [List.cons_append, List.append_assoc, countD_cons, countD_append,
          countD_nil, countD_robust, isDispatchOn]
    · exact countD_leave_other flag12 signals connections real u st _
        (by decide) (by decide) (by decide)
  · exact ⟨countD_commit_other signals connections real u st _ (by decide)
      (by decide), countD_commit_other signals connections real u st _
      (by decide) (by decide)⟩
  · exact ⟨countD_cum_other signals connections real u st _ (by decide)
      (by decide), countD_cum_other signals connections real u st _
      (by decide) (by decide)⟩
  · exact ⟨countD_managed_other signals connections real flag u st _
      (by decide) (by decide), countD_managed_other signals connections real
      flag u st _ (by decide) (by decide)⟩
  · exact ⟨countD_rollback_other signals connections real u st _ (by decide)
      (by decide), countD_rollback_other signals connections real u st _
      (by decide) (by decide)⟩
  · exact ⟨countD_rum_other signals connections real u st _ (by decide)
      (by decide), countD_rum_other signals connections real u st _
      (by decide) (by decide)⟩

/-- Witness for C9: with no subscribers (so no veto), a dirty leave still
dispatches post_transaction_management exactly once. -/
theorem claim_C9_witness :
    countD SignalName.post_transaction_management
      (leave_transaction_management false noSubscribers (fun _ => 0)
        (fun s => (s, some 3)) none ⟨true, true⟩).trace = 1 := by
  exact ((claim_C9 noSubscribers (fun _ => 0) (fun s => (s, some 3)) true true
    false none ⟨true, true⟩).2.1 (by simp [noSubscribers])).1

/-- C10: when IS_DJANGO_12 is true the wrapped leave dispatches no
pre_rollback and no post_rollback even when the transaction is dirty
(those are expected from the internal Django 1.2 call to the separately
wrapped rollback), while post_transaction_management still fires once on
every leave; when IS_DJANGO_12 is false the dirty-conditional rollback
bracket applies: a dirty leave starts with a strict pre_rollback dispatch
and, absent a veto, dispatches post_rollback (robust) exactly once, and a
clean leave dispatches neither rollback signal. -/
theorem claim_C10 (signals : DatabaseSignals) (connections : String → Nat)
    (real : RealOp) (u : Option String) (st : TxnState) :
    (countD SignalName.pre_rollback
        (leave_transaction_management true signals connections real u st).trace = 0 ∧
      countD SignalName.post_rollback
        (leave_transaction_management true signals connections real u st).trace = 0 ∧
      countD SignalName.post_transaction_management
        (leave_transaction_management true signals connections real u st).trace = 1) ∧
    (st.dirty = true →
      (leave_transaction_management false signals connections real u st).trace.head? =
        some (Event.dispatchStart SignalName.pre_rollback Mode.strict
          (conn connections u)) ∧
      ((∀ x ∈ signals.pre_rollback, x.fails = false) →
        countDM SignalName.post_rollback Mode.robust
          (leave_transaction_management false signals connections real u st).trace = 1)) ∧
    (st.dirty = false →
      countD SignalName.pre_rollback
        (leave_transaction_management false signals connections real u st).trace = 0 ∧
      countD SignalName.post_rollback
        (leave_transaction_management false signals connections real u st).trace = 0) := by
  refine ⟨?_, ?_, ?_⟩
  · have hc : (st.dirty && !true) = false := by simp
    rw [leave_no_bracket true signals connections real u st hc]
    refine ⟨?_, ?_, ?_⟩ <;>
      simp [List.cons_append, List.append_assoc, countD_cons, countD_append,
        countD_nil, countD_robust, isDispatchOn]
  · intro hd
    have hc : (st.dirty && !false) = true := by simp [hd]
    constructor
    · rcases hb : (runStrict SignalName.pre_rollback signals.pre_rollback).2
          with _ | e
      · rw [leave_bracket false signals connections real u st hc hb]
        simp
      · rw [leave_veto false signals connections real u st e hc hb]
        simp
    · intro hnv
      have hok : (runStrict SignalName.pre_rollback signals.pre_rollback).2 =
          none := by
        rw [runStrict_noFail SignalName.pre_rollback signals.pre_rollback hnv]
      rw [leave_bracket false signals connections real u st hc hok]
      simp [List.cons_append, List.append_assoc, countDM_cons, countDM_append,
        countDM_nil, countDM_runStrict, countDM_robust, isDispatchM]
  · intro hd
    have hc : (st.dirty && !false) = false := by simp [hd]
    rw [leave_no_bracket false signals connections real u st hc]
    constructor <;>
      simp [List.cons_append, List.append_assoc, countD_cons, countD_append,
        countD_nil, countD_robust, isDispatchOn]

/-- Witness for C10: a dirty leave outside Django 1.2, with no
subscribers (so no veto), opens with the strict pre_rollback dispatch and
dispatches post_rollback exactly once. -/
theorem claim_C10_witness :
    (leave_transaction_management false noSubscribers (fun _ => 0)
        (fun s => (s, none)) none ⟨true, false⟩).trace.head? =
      some (Event.dispatchStart SignalName.pre_rollback Mode.strict 0) ∧
    countDM SignalName.post_rollback Mode.robust
      (leave_transaction_management false noSubscribers (fun _ => 0)
        (fun s => (s, none)) none ⟨true, false⟩).trace = 1 := by
  have h := (claim_C10 noSubscribers (fun _ => 0) (fun s => (s, none)) none
    ⟨true, false⟩).2.1 rfl
  exact ⟨h.1, h.2 (by simp [noSubscribers])⟩

/-- Counterexample for C1 as stated: the wrapped leave is
version-conditional — with IS_DJANGO_12 true, a dirty leave dispatches no
pre_rollback and no post_rollback at all, refuting the unconditional
reading that every dirty leave dispatches the rollback bracket. -/
theorem claim_C1_counterexample :
    (⟨true, true⟩ : TxnState).dirty = true ∧
    countD SignalName.pre_rollback
      (leave_transaction_management true noSubscribers (fun _ => 0)
        (fun s => (s, none)) none ⟨true, true⟩).trace = 0 ∧
    countD SignalName.post_rollback
      (leave_transaction_management true noSubscribers (fun _ => 0)
        (fun s => (s, none)) none ⟨true, true⟩).trace = 0 := by
  refine ⟨rfl, ?_, ?_⟩ <;> rfl

/-- C1 amended: for leave_transaction_management with IS_DJANGO_12 false
(on Django 1.2 the rollback dispatches are omitted — see the
counterexample and C10).  is_dirty is read before the real leave: if
dirty, pre_rollback (strict) is dispatched before the real call; after
the real call, post_rollback (robust) is dispatched when it was dirty,
followed by an unconditional post_transaction_management (robust), and
(absent a pre_rollback veto) these post dispatches happen whatever the
real leave returns or raises, with the real error still propagating to
the caller. -/
theorem claim_C1 (signals : DatabaseSignals) (connections : String → Nat)
    (real : RealOp) (u : Option String) (st : TxnState) :
    (st.dirty = true →
      dispatchBeforeReal SignalName.pre_rollback
        (leave_transaction_management false signals connections real u st).trace = true ∧
      countDM SignalName.pre_rollback Mode.strict
        (leave_transaction_management false signals connections real u st).trace = 1) ∧
    ((∀ x ∈ signals.pre_rollback, x.fails = false) →
      (leave_transaction_management false signals connections real u st).err =
        ((real st).2).map Err.opErr ∧
      countDM SignalName.post_rollback Mode.robust
        (leave_transaction_management false signals connections real u st).trace =
        (if st.dirty then 1 else 0) ∧
      countDM SignalName.post_transaction_management Mode.robust
        (leave_transaction_management false signals connections real u st).trace = 1 ∧
      dispatchAfterReal SignalName.post_transaction_management
        (leave_transaction_management false signals connections real u st).trace = true ∧
      (st.dirty = true →
        dispatchAfterReal SignalName.post_rollback
          (leave_transaction_management false signals connections real u st).trace = true ∧
        firstDispatchBefore SignalName.post_rollback
          SignalName.post_transaction_management
          (leave_transaction_management false signals connections real u st).trace = true)) := by
  constructor
  · intro hd
    have hc : (st.dirty && !false) = true := by simp [hd]
    rcases hb : (runStrict SignalName.pre_rollback signals.pre_rollback).2
        with _ | e
    · rw [leave_bracket false signals connections real u st hc hb]
      constructor
      · simp only [List.cons_append]
        exact dispatchBeforeReal_head _ _ _ _
      · simp [List.cons_append, List.append_assoc, countDM_cons, countDM_append,
          countDM_nil, countDM_runStrict, countDM_robust, isDispatchM]
    · rw [leave_veto false signals connections real u st e hc hb]
      exact ⟨dispatchBeforeReal_head _ _ _ _, by
        simp [countDM_cons, countDM_runStrict, isDispatchM]⟩
  · intro hnv
    have hok : (runStrict SignalName.pre_rollback signals.pre_rollback).2 =
        none := by
      rw [runStrict_noFail SignalName.pre_rollback signals.pre_rollback hnv]
    by_cases hd : st.dirty = true
    · have hc : (st.dirty && !false) = true := by simp [hd]
      rw [leave_bracket false signals connections real u st hc hok]
      have hskip : ∀ e ∈ (runStrict SignalName.pre_rollback
          signals.pre_rollback).1,
          isDispatchOn SignalName.post_rollback e = false ∧
          isDispatchOn SignalName.post_transaction_management e = false := by
        intro e he
        rcases runStrict_shape _ _ e he with ⟨i, rfl⟩
        exact ⟨rfl, rfl⟩
      refine ⟨rfl, ?_, ?_, ?_, ?_⟩
      · simp [hd, List.cons_append, List.append_assoc, countDM_cons,
          countDM_append, countDM_nil, countDM_runStrict, countDM_robust,
          isDispatchM]
      · simp [List.cons_append, List.append_assoc, countDM_cons,
          countDM_append, countDM_nil, countDM_runStrict, countDM_robust,
          isDispatchM]
      · simp only [List.cons_append, List.append_assoc, List.singleton_append]
        rw [dispatchAfterReal_consDispatch,
          dispatchAfterReal_append _ _ _ (realCall_not_mem_runStrict _ _),
          dispatchAfterReal_realCons]
        simp [containsDispatch_append, containsDispatch_robust]
      · intro _
        constructor
        · simp only [List.cons_append, List.append_assoc,
            List.singleton_append]
          rw [dispatchAfterReal_consDispatch,
            dispatchAfterReal_append _ _ _ (realCall_not_mem_runStrict _ _),
            dispatchAfterReal_realCons]
          simp [containsDispatch_append, containsDispatch_robust]
        · simp only [List.cons_append, List.append_assoc,
            List.singleton_append]
          rw [firstDispatchBefore_consOther _ _ _ _ _ _ (by decide)
            (by decide), firstDispatchBefore_skip _ _ _ _ hskip,
            firstDispatchBefore_consReal]
          exact firstDispatchBefore_robust_self _ _ _ _ _
    · simp only [Bool.not_eq_true] at hd
      have hc : (st.dirty && !false) = false := by simp [hd]
      rw [leave_no_bracket false signals connections real u st hc]
      refine ⟨rfl, ?_, ?_, ?_, ?_⟩
      · simp [hd, List.cons_append, List.append_assoc, countDM_cons,
          countDM_append, countDM_nil, countDM_robust, isDispatchM]
      · simp [List.cons_append, List.append_assoc, countDM_cons,
          countDM_append, countDM_nil, countDM_robust, isDispatchM]
      · simp only [List.singleton_append]
        rw [dispatchAfterReal_realCons]
        simpa using containsDispatch_robust
          SignalName.post_transaction_management (conn connections u)
          signals.post_transaction_management
      · intro hcontra
        rw [hd] at hcontra
        exact Bool.noConfusion hcontra

/-- Witness for C1: a dirty leave (IS_DJANGO_12 false) with no
subscribers and a raising real leave opens with the strict pre_rollback
dispatch, fires post_rollback and post_transaction_management anyway, and
still propagates the real error. -/
theorem claim_C1_witness :
    dispatchBeforeReal SignalName.pre_rollback
      (leave_transaction_management false noSubscribers (fun _ => 0)
        (fun s => (s, some 9)) none ⟨true, true⟩).trace = true ∧
    (leave_transaction_management false noSubscribers (fun _ => 0)
      (fun s => (s, some 9)) none ⟨true, true⟩).err = some (Err.opErr 9) ∧
    countDM SignalName.post_rollback Mode.robust
      (leave_transaction_management false noSubscribers (fun _ => 0)
        (fun s => (s, some 9)) none ⟨true, true⟩).trace = 1 ∧
    countDM SignalName.post_transaction_management Mode.robust
      (leave_transaction_management false noSubscribers (fun _ => 0)
        (fun s => (s, some 9)) none ⟨true, true⟩).trace = 1 := by
  have h1 := (claim_C1 noSubscribers (fun _ => 0) (fun s => (s, some 9)) none
    ⟨true, true⟩).1 rfl
  have h2 := (claim_C1 noSubscribers (fun _ => 0) (fun s => (s, some 9)) none
    ⟨true, true⟩).2 (by simp [noSubscribers])
  exact ⟨h1.1, h2.1, by simpa using h2.2.1, h2.2.2.1⟩

theorem commit_postCount (signals : DatabaseSignals)
    (connections : String → Nat) (real : RealOp) (u : Option String)
    (st : TxnState) :
    countD SignalName.post_commit (commit signals connections real u st).trace ≤
      countD SignalName.pre_commit (commit signals connections real u st).trace ∧
    countD SignalName.post_commit
      (commit signals connections real u st).trace ≤ 1 ∧
    ((commit signals connections real u st).err ≠ none →
      countD SignalName.post_commit
        (commit signals connections real u st).trace = 0) := by
  rcases hb : (runStrict SignalName.pre_commit signals.pre_commit).2 with _ | e
  · rcases hr : real st with ⟨st2, er⟩
    cases er with
    | none =>
      rw [commit_success signals connections real u st st2 hb hr]
      refine ⟨?_, ?_, ?_⟩
      · simp [List.cons_append, List.append_assoc, countD_cons, countD_append,
          countD_nil, countD_runStrict, countD_robust, isDispatchOn]
      · simp [List.cons_append, List.append_assoc, countD_cons, countD_append,
          countD_nil, countD_runStrict, countD_robust, isDispatchOn]
      · intro h
        exact absurd rfl h
    | some code =>
      rw [commit_opFail signals connections real u st st2 code hb hr]
      refine ⟨?_, ?_, fun _ => ?_⟩ <;>
        simp [List.cons_append, List.append_assoc, countD_cons, countD_append,
          countD_nil, countD_runStrict, isDispatchOn]
  · rw [commit_veto signals connections real u st e hb]
    refine ⟨?_, ?_, fun _ => ?_⟩ <;>
      simp [countD_cons, countD_runStrict, isDispatchOn]

theorem rollback_postCount (signals : DatabaseSignals)
    (connections : String → Nat) (real : RealOp) (u : Option String)
    (st : TxnState) :
    countD SignalName.post_rollback
      (rollback signals connections real u st).trace ≤
      countD SignalName.pre_rollback
        (rollback signals connections real u st).trace ∧
    countD SignalName.post_rollback
      (rollback signals connections real u st).trace ≤ 1 ∧
    ((rollback signals connections real u st).err ≠ none →
      countD SignalName.post_rollback
        (rollback signals connections real u st).trace = 0) := by
  rcases hb : (runStrict SignalName.pre_rollback signals.pre_rollback).2
      with _ | e
  · rcases hr : real st with ⟨st2, er⟩
    cases er with
    | none =>
      rw [rollback_success signals connections real u st st2 hb hr]
      refine ⟨?_, ?_, ?_⟩
      · simp [List.cons_append, List.append_assoc, countD_cons, countD_append,
          countD_nil, countD_runStrict, countD_robust, isDispatchOn]
      · simp [List.cons_append, List.append_assoc, countD_cons, countD_append,
          countD_nil, countD_runStrict, countD_robust, isDispatchOn]
      · intro h
        exact absurd rfl h
    | some code =>
      rw [rollback_opFail signals connections real u st st2 code hb hr]
      refine ⟨?_, ?_, fun _ => ?_⟩ <;>
        simp [List.cons_append, List.append_assoc, countD_cons, countD_append,
          countD_nil, countD_runStrict, isDispatchOn]
  · rw [rollback_veto signals connections real u st e hb]
    refine ⟨?_, ?_, fun _ => ?_⟩ <;>
      simp [countD_cons, countD_runStrict, isDispatchOn]

theorem leave_postCount (flag12 : Bool) (signals : DatabaseSignals)
    (connections : String → Nat) (real : RealOp) (u : Option String)
    (st : TxnState) :
    countD SignalName.post_rollback
      (leave_transaction_management flag12 signals connections real u st).trace ≤
      countD SignalName.pre_rollback
        (leave_transaction_management flag12 signals connections real u st).trace ∧
    countD SignalName.post_rollback
      (leave_transaction_management flag12 signals connections real u st).trace ≤ 1 := by
  by_cases hc : (st.dirty && !flag12) = true
  · rcases hb : (runStrict SignalName.pre_rollback signals.pre_rollback).2
        with _ | e
    · rw [leave_bracket flag12 signals connections real u st hc hb]
      constructor <;>
        simp [List.cons_append, List.append_assoc, countD_cons, countD_append,
          countD_nil, countD_runStrict, countD_robust, isDispatchOn]
    · rw [leave_veto flag12 signals connections real u st e hc hb]
      constructor <;> simp [countD_cons, countD_runStrict, isDispatchOn]
  · simp only [Bool.not_eq_true] at hc
    rw [leave_no_bracket flag12 signals connections real u st hc]
    constructor <;>
      simp [List.cons_append, List.append_assoc, countD_cons, countD_append,
        countD_nil, countD_robust, isDispatchOn]

/-- Counterexample for C2 as stated: in a dirty leave (IS_DJANGO_12
false) whose real leave raises, the pre_rollback dispatch is still
followed by a post_rollback dispatch (the posts sit in a finally block),
contradicting the clause that a post dispatch occurs only if the
underlying transaction-control call completed without raising. -/
theorem claim_C2_counterexample :
    countD SignalName.pre_rollback
      (leave_transaction_management false noSubscribers (fun _ => 0)
        (fun s => (s, some 7)) none ⟨true, true⟩).trace = 1 ∧
    (leave_transaction_management false noSubscribers (fun _ => 0)
      (fun s => (s, some 7)) none ⟨true, true⟩).err = some (Err.opErr 7) ∧
    countD SignalName.post_rollback
      (leave_transaction_management false noSubscribers (fun _ => 0)
        (fun s => (s, some 7)) none ⟨true, true⟩).trace = 1 := by
  refine ⟨?_, ?_, ?_⟩ <;> rfl

/-- C2 amended: in every wrapped operation each pre_commit or
pre_rollback dispatch is matched by at most one corresponding post
dispatch in the same call; for commit, commit_unless_managed, managed,
rollback and rollback_unless_managed the post fires only when the call
propagated no error, while for leave_transaction_management the
post_rollback fires whenever its pre_rollback did, even when the real
leave raised (the counterexample shows the original unconditional
no-error clause fails there). -/
theorem claim_C2 (signals : DatabaseSignals) (connections : String → Nat)
    (real : RealOp) (mf flag flag12 : Bool) (u : Option String)
    (st : TxnState) :
    (countD SignalName.post_commit
        (commit signals connections real u st).trace ≤
      countD SignalName.pre_commit
        (commit signals connections real u st).trace ∧
      countD SignalName.post_commit
        (commit signals connections real u st).trace ≤ 1 ∧
      countD SignalName.post_rollback
        (commit signals connections real u st).trace = 0 ∧
      ((commit signals connections real u st).err ≠ none →
        countD SignalName.post_commit
          (commit signals connections real u st).trace = 0)) ∧
    (countD SignalName.post_commit
        (commit_unless_managed signals connections real u st).trace ≤
      countD SignalName.pre_commit
        (commit_unless_managed signals connections real u st).trace ∧
      countD SignalName.post_commit
        (commit_unless_managed signals connections real u st).trace ≤ 1 ∧
      countD SignalName.post_rollback
        (commit_unless_managed signals connections real u st).trace = 0 ∧
      ((commit_unless_managed signals connections real u st).err ≠ none →
        countD SignalName.post_commit
          (commit_unless_managed signals connections real u st).trace = 0)) ∧
    (countD SignalName.post_commit
        (enter_transaction_management signals connections real mf u st).trace = 0 ∧
      countD SignalName.post_rollback
        (enter_transaction_management signals connections real mf u st).trace = 0) ∧
    (countD SignalName.post_rollback
        (leave_transaction_management flag12 signals connections real u st).trace ≤
      countD SignalName.pre_rollback
        (leave_transaction_management flag12 signals connections real u st).trace ∧
      countD SignalName.post_rollback
        (leave_transaction_management flag12 signals connections real u st).trace ≤ 1 ∧
      countD SignalName.post_commit
        (leave_transaction_management flag12 signals connections real u st).trace = 0) ∧
    (countD SignalName.post_commit
        (managed signals connections real flag u st).trace ≤
      countD SignalName.pre_commit
        (managed signals connections real flag u st).trace ∧
      countD SignalName.post_commit
        (managed signals connections real flag u st).trace ≤ 1 ∧
      countD SignalName.post_rollback
        (managed signals connections real flag u st).trace = 0 ∧
      ((managed signals connections real flag u st).err ≠ none →
        countD SignalName.post_commit
          (managed signals connections real flag u st).trace = 0)) ∧
    (countD SignalName.post_rollback
        (rollback signals connections real u st).trace ≤
      countD SignalName.pre_rollback
        (rollback signals connections real u st).trace ∧
      countD SignalName.post_rollback
        (rollback signals connections real u st).trace ≤ 1 ∧
      countD SignalName.post_commit
        (rollback signals connections real u st).trace = 0 ∧
      ((rollback signals connections real u st).err ≠ none →
        countD SignalName.post_rollback
          (rollback signals connections real u st).trace = 0)) ∧
    (countD SignalName.post_rollback
        (rollback_unless_managed signals connections real u st).trace ≤
      countD SignalName.pre_rollback
        (rollback_unless_managed signals connections real u st).trace ∧
      countD SignalName.post_rollback
        (rollback_unless_managed signals connections real u st).trace ≤ 1 ∧
      countD SignalName.post_commit
        (rollback_unless_managed signals connections real u st).trace = 0 ∧
      ((rollback_unless_managed signals connections real u st).err ≠ none →
        countD SignalName.post_rollback
          (rollback_unless_managed signals connections real u st).trace = 0)) := by
  refine ⟨?_, ?_, ?_, ?_, ?_, ?_, ?_⟩
  · rcases commit_postCount signals connections real u st with ⟨h1, h2, h3⟩
    exact ⟨h1, h2, countD_commit_other signals connections real u st _
      (by decide) (by decide), h3⟩
  · by_cases hm : st.managed = true
    · rw [cum_managed signals connections real u st hm]
      exact ⟨Nat.le_refl _, Nat.zero_le _, rfl, fun _ => rfl⟩
    · simp only [Bool.not_eq_true] at hm
      rw [cum_not_managed signals connections real u st hm]
      rcases commit_postCount signals connections real u st with ⟨h1, h2, h3⟩
      exact ⟨h1, h2, countD_commit_other signals connections real u st _
        (by decide) (by decide), h3⟩
  · exact ⟨countD_enter_other signals connections real mf u st _ (by decide),
      countD_enter_other signals connections real mf u st _ (by decide)⟩
  · rcases leave_postCount flag12 signals connections real u st with ⟨h1, h2⟩
    exact ⟨h1, h2, countD_leave_other flag12 signals connections real u st _
      (by decide) (by decide) (by decide)⟩
  · by_cases hc : (!flag && st.dirty) = true
    · have hf : flag = false := by
        cases flag
        · rfl
        · simp at hc
      have hd : st.dirty = true := (Bool.and_eq_true_iff.1 hc).2
      subst hf
      rw [managed_commitCase signals connections real u st hd]
      rcases commit_postCount signals connections real u st with ⟨h1, h2, h3⟩
      exact ⟨h1, h2, countD_commit_other signals connections real u st _
        (by decide) (by decide), h3⟩
    · simp only [Bool.not_eq_true] at hc
      rw [managed_skip signals connections real flag u st hc]
      exact ⟨Nat.le_refl _, Nat.zero_le _, rfl, fun _ => rfl⟩
  · rcases rollback_postCount signals connections real u st with ⟨h1, h2, h3⟩
    exact ⟨h1, h2, countD_rollback_other signals connections real u st _
      (by decide) (by decide), h3⟩
  · by_cases hm : st.managed = true
    · rw [rum_managed signals connections real u st hm]
      exact ⟨Nat.le_refl _, Nat.zero_le _, rfl, fun _ => rfl⟩
    · simp only [Bool.not_eq_true] at hm
      rw [rum_not_managed signals connections real u st hm]
      rcases rollback_postCount signals connections real u st with ⟨h1, h2, h3⟩
      exact ⟨h1, h2, countD_rollback_other signals connections real u st _
        (by decide) (by decide), h3⟩

/-- Witness for C2: a commit whose real commit raises dispatches no
post_commit. -/
theorem claim_C2_witness :
    countD SignalName.post_commit
      (commit noSubscribers (fun _ => 0) (fun s => (s, some 5)) none
        ⟨true, true⟩).trace = 0 := by
  exact (claim_C2 noSubscribers (fun _ => 0) (fun s => (s, some 5)) true true
    false none ⟨true, true⟩).1.2.2.2 (by decide)

end DbSignals
